import Mathlib

/-!
Shallow embedding of the packet classification and queue logic of the
"Packet Defender" game (files config.py and packet_sniffer.py).

Modelling conventions:
* Python lists of IPs and ports become Lean `List`s with the same literal
  contents (from config.py).
* `random.choice(l)` is modelled by `randChoice l i d`: the draw `i` is an
  explicit input and the value is `l.getD (i % l.length) d`.
* `random.randint(a, b)` (both ends inclusive) is modelled as
  `a + x % (b - a + 1)` for an explicit draw `x`.
* `random.random()` is modelled as a rational draw; the float thresholds
  0.7 and 0.9 of `_generate_normal_packet` become 7/10 and 9/10.
* Wall-clock readings (`time.time()`) are rationals passed explicitly.
* The run-time identifier fields `packet_id` (a uuid) and `timestamp`, and
  the derived float statistics (`packets_per_second`, `peak_pps`), are not
  modelled: no claim under verification mentions them.
-/

namespace PacketDefender

/-! ## config.py constants -/

/-- config.py: MAX_QUEUE_SIZE. -/
def MAX_QUEUE_SIZE : Nat := 500

/-- config.py: NORMAL_PACKET_RATE. -/
def NORMAL_PACKET_RATE : Nat := 5

/-- config.py: ATTACK_PACKET_RATE. -/
def ATTACK_PACKET_RATE : Nat := 50

/-- config.py: MAX_PACKET_RATE. -/
def MAX_PACKET_RATE : Nat := 200

/-- config.py: SIMULATION_MODE. -/
def SIMULATION_MODE : Bool := true

/-- config.py: WHITELISTED_IPS. -/
def WHITELISTED_IPS : List String :=
  ["127.0.0.1", "192.168.1.1", "192.168.1.10", "192.168.1.20", "192.168.1.100",
   "10.0.0.1", "10.0.0.5", "172.16.0.1",
   "8.8.8.8", "8.8.4.4", "1.1.1.1"]

/-- config.py: BLACKLISTED_IPS. -/
def BLACKLISTED_IPS : List String :=
  ["103.75.201.2", "185.156.73.54", "45.155.205.233", "194.26.192.64",
   "89.248.165.52", "45.146.164.110", "185.220.101.1", "23.129.64.100",
   "91.240.118.172", "185.100.87.41"]

/-- config.py: SUSPICIOUS_IPS. -/
def SUSPICIOUS_IPS : List String :=
  ["45.33.32.156", "199.87.154.255", "91.189.91.157", "104.131.0.69", "178.62.0.100"]

/-- config.py: SERVER_IPS. -/
def SERVER_IPS : List String :=
  ["192.168.1.100", "192.168.1.101", "192.168.1.102", "192.168.1.103", "192.168.1.104"]

/-- config.py: ATTACK_TARGET_PORTS. -/
def ATTACK_TARGET_PORTS : List Nat := [22, 23, 80, 443, 445, 135, 139, 1433, 3306, 3389, 5900, 8080]

/-- config.py: SAFE_PORTS. -/
def SAFE_PORTS : List Nat := [80, 443, 53, 8080]

/-- config.py: the COLORS entries referenced by the modelled code
(threat-level colors and the BLOCKED color; the UI and protocol entries of
the dict are not read by any modelled function). -/
def COLORS : List (String × (Nat × Nat × Nat)) :=
  [("SAFE", (0, 191, 255)), ("UNKNOWN", (255, 255, 0)), ("SUSPICIOUS", (255, 165, 0)),
   ("HOSTILE", (255, 50, 50)), ("CRITICAL", (148, 0, 211)), ("BLOCKED", (128, 128, 128))]

/-- config.py: one entry of the THREAT_LEVELS dict. -/
structure ThreatConfig where
  level : Nat
  color : Nat × Nat × Nat
  sprite : String
  damage : Nat
  label : String
  description : String
  priority : Nat
deriving DecidableEq, Repr

/-- config.py: THREAT_LEVELS. -/
def THREAT_LEVELS : List (String × ThreatConfig) :=
  [("SAFE",
    { level := 0, color := (0, 191, 255), sprite := "blue", damage := 0,
      label := "Safe Traffic", description := "Trusted source, no action needed", priority := 1 }),
   ("UNKNOWN",
    { level := 1, color := (255, 255, 0), sprite := "yellow", damage := 1,
      label := "Unknown Source", description := "Unverified source, monitoring", priority := 2 }),
   ("SUSPICIOUS",
    { level := 2, color := (255, 165, 0), sprite := "orange", damage := 3,
      label := "Suspicious Activity", description := "Potentially dangerous, investigate", priority := 3 }),
   ("HOSTILE",
    { level := 3, color := (255, 50, 50), sprite := "red", damage := 5,
      label := "Hostile Traffic", description := "Confirmed threat, block recommended", priority := 4 }),
   ("CRITICAL",
    { level := 4, color := (148, 0, 211), sprite := "skull", damage := 10,
      label := "Critical Threat", description := "Severe attack, immediate action required", priority := 5 })]

/-- config.py: one entry of the ATTACK_TYPES dict.  `intensity` and
`duration` are `Option`s because the Python code reads them with
`dict.get(key, default)` and the "NONE" entry has no "duration" key. -/
structure AttackConfig where
  name : String
  intensity : Option Nat
  description : String
  duration : Option Rat
deriving DecidableEq, Repr

/-- config.py: ATTACK_TYPES. -/
def ATTACK_TYPES : List (String × AttackConfig) :=
  [("NONE",
    { name := "None", intensity := some 0, description := "No attack", duration := none }),
   ("PORT_SCAN",
    { name := "Port Scan", intensity := some 20, description := "Scanning for open ports",
      duration := some 5 }),
   ("SYN_FLOOD",
    { name := "SYN Flood", intensity := some 100, description := "TCP SYN packet flood",
      duration := some 10 }),
   ("DDOS",
    { name := "DDoS Attack", intensity := some 200, description := "Distributed Denial of Service",
      duration := some 15 }),
   ("BRUTE_FORCE",
    { name := "Brute Force", intensity := some 30, description := "Password cracking attempt",
      duration := some 8 }),
   ("PING_FLOOD",
    { name := "Ping Flood", intensity := some 150, description := "ICMP echo request flood",
      duration := some 10 })]

/-! ## packet_sniffer.py enums -/

/-- packet_sniffer.py: class ThreatLevel(Enum). -/
inductive ThreatLevel where
  | SAFE
  | UNKNOWN
  | SUSPICIOUS
  | HOSTILE
  | CRITICAL
deriving DecidableEq, Repr

/-- packet_sniffer.py: class PacketDirection(Enum). -/
inductive PacketDirection where
  | INBOUND
  | OUTBOUND
  | INTERNAL
  | EXTERNAL
  | UNKNOWN
deriving DecidableEq, Repr

/-- The `.name` attribute of a ThreatLevel value (Python Enum member name). -/
def ThreatLevel.name : ThreatLevel → String
  | .SAFE => "SAFE"
  | .UNKNOWN => "UNKNOWN"
  | .SUSPICIOUS => "SUSPICIOUS"
  | .HOSTILE => "HOSTILE"
  | .CRITICAL => "CRITICAL"

/-! ## packet_sniffer.py: the Packet dataclass -/

/-- packet_sniffer.py: @dataclass Packet (fields with their dataclass
defaults; `packet_id` and `timestamp` omitted, see the module docstring). -/
structure Packet where
  src_ip : String := "0.0.0.0"
  dst_ip : String := "0.0.0.0"
  src_port : Nat := 0
  dst_port : Nat := 0
  protocol : String := "TCP"
  size : Nat := 64
  ttl : Nat := 64
  flags : String := ""
  threat_level : ThreatLevel := .UNKNOWN
  direction : PacketDirection := .UNKNOWN
  attack_type : String := "NONE"
  is_blocked : Bool := false
  is_processed : Bool := false
  damage : Nat := 0
  color : Nat × Nat × Nat := (255, 255, 255)
  sprite_type : String := "blue"
  tags : List String := []
deriving DecidableEq, Repr

/-- The internality test of _determine_direction: the boolean expression
computed for `src_internal` (on src_ip) and `dst_internal` (on dst_ip). -/
def isInternalAddr (ip : String) : Bool :=
  decide (ip ∈ SERVER_IPS) ||
  ip.startsWith "192.168." ||
  ip.startsWith "10." ||
  ip.startsWith "172.16."

/-- packet_sniffer.py: Packet._determine_direction. -/
def Packet._determine_direction (p : Packet) : Packet :=
  let src_internal := isInternalAddr p.src_ip
  let dst_internal := isInternalAddr p.dst_ip
  if src_internal && dst_internal then { p with direction := .INTERNAL }
  else if dst_internal then { p with direction := .INBOUND }
  else if src_internal then { p with direction := .OUTBOUND }
  else { p with direction := .EXTERNAL }

/-- packet_sniffer.py: Packet._set_visual_properties. -/
def Packet._set_visual_properties (p : Packet) : Packet :=
  match List.lookup p.threat_level.name THREAT_LEVELS with
  | some threat_config =>
      { p with color := threat_config.color, damage := threat_config.damage,
               sprite_type := threat_config.sprite }
  | none =>
      { p with color := (List.lookup "UNKNOWN" COLORS).getD (255, 255, 0),
               damage := 1, sprite_type := "yellow" }

/-- packet_sniffer.py: Packet._classify (runs _determine_direction and
_set_visual_properties, exactly as in the source). -/
def Packet._classify (p : Packet) : Packet :=
  let p :=
    if p.src_ip ∈ BLACKLISTED_IPS then
      { p with threat_level := .CRITICAL, tags := p.tags ++ ["blacklisted"] }
    else if p.src_ip ∈ SUSPICIOUS_IPS then
      { p with threat_level := .HOSTILE, tags := p.tags ++ ["suspicious"] }
    else if p.src_ip ∈ WHITELISTED_IPS then
      { p with threat_level := .SAFE, tags := p.tags ++ ["whitelisted"] }
    else
      { p with threat_level := .UNKNOWN, tags := p.tags ++ ["unknown_source"] }
  let p := p._determine_direction
  p._set_visual_properties

/-- Constructing a Packet runs __post_init__, which calls _classify. -/
def mkPacket (p : Packet) : Packet := p._classify

/-- packet_sniffer.py: Packet.mark_blocked. -/
def Packet.mark_blocked (p : Packet) : Packet :=
  { p with is_blocked := true, damage := 0,
           color := (List.lookup "BLOCKED" COLORS).getD (128, 128, 128),
           tags := p.tags ++ ["blocked"] }

/-- packet_sniffer.py: Packet.mark_processed. -/
def Packet.mark_processed (p : Packet) : Packet :=
  { p with is_processed := true }

/-! ## packet_sniffer.py: the CaptureStatistics dataclass -/

/-- packet_sniffer.py: @dataclass CaptureStatistics (the thread lock, the
float pps fields and `start_time` are omitted; `unique_sources` is a list
kept duplicate-free, modelling the Python set). -/
structure CaptureStatistics where
  total_captured : Nat := 0
  total_blocked : Nat := 0
  total_allowed : Nat := 0
  total_damage : Nat := 0
  damage_prevented : Nat := 0
  safe_count : Nat := 0
  unknown_count : Nat := 0
  suspicious_count : Nat := 0
  hostile_count : Nat := 0
  critical_count : Nat := 0
  unique_sources : List String := []
deriving DecidableEq, Repr

/-- packet_sniffer.py: CaptureStatistics.update. -/
def CaptureStatistics.update (s : CaptureStatistics) (packet : Packet) : CaptureStatistics :=
  let s := { s with
    total_captured := s.total_captured + 1,
    unique_sources :=
      if packet.src_ip ∈ s.unique_sources then s.unique_sources
      else packet.src_ip :: s.unique_sources }
  let s :=
    if packet.is_blocked then
      { s with total_blocked := s.total_blocked + 1,
               damage_prevented := s.damage_prevented + packet.damage }
    else
      { s with total_allowed := s.total_allowed + 1,
               total_damage := s.total_damage + packet.damage }
  match packet.threat_level with
  | .SAFE => { s with safe_count := s.safe_count + 1 }
  | .UNKNOWN => { s with unknown_count := s.unknown_count + 1 }
  | .SUSPICIOUS => { s with suspicious_count := s.suspicious_count + 1 }
  | .HOSTILE => { s with hostile_count := s.hostile_count + 1 }
  | .CRITICAL => { s with critical_count := s.critical_count + 1 }

/-- packet_sniffer.py: CaptureStatistics.reset (zeroes every counter and
clears the set of sources). -/
def CaptureStatistics.reset (_s : CaptureStatistics) : CaptureStatistics :=
  { total_captured := 0, total_blocked := 0, total_allowed := 0,
    total_damage := 0, damage_prevented := 0,
    safe_count := 0, unknown_count := 0, suspicious_count := 0,
    hostile_count := 0, critical_count := 0, unique_sources := [] }

/-! ## packet_sniffer.py: the PacketSniffer state and its operations -/

/-- The mutable state of a PacketSniffer that the verified operations
touch.  Field defaults are the values set by PacketSniffer.__init__ with
the shipped config (SIMULATION_MODE = True).  `packet_queue` is a FIFO
list: the head is the oldest element, `put` appends at the back. -/
structure SnifferState where
  packet_queue : List Packet := []
  statistics : CaptureStatistics := {}
  blocked_ips : List String := []
  simulation_mode : Bool := SIMULATION_MODE
  attack_active : Bool := false
  attack_type : Option String := none
  attack_start_time : Rat := 0
  attack_duration : Rat := 0
  current_rate : Nat := NORMAL_PACKET_RATE
deriving DecidableEq, Repr

/-- The state of a freshly constructed PacketSniffer. -/
def initialSniffer : SnifferState := {}

/-- packet_sniffer.py: PacketSniffer._process_packet.  Returns the new
state and the boolean result (True if queued, False if blocked/dropped).
`put_nowait` raises Full exactly when the queue already holds
MAX_QUEUE_SIZE packets; the Full handler pops the oldest element and
retries the put. -/
def processPacket (st : SnifferState) (packet : Packet) : SnifferState × Bool :=
  let packet := if packet.src_ip ∈ st.blocked_ips then packet.mark_blocked else packet
  let st := { st with statistics := st.statistics.update packet }
  if packet.is_blocked then
    (st, false)
  else if st.packet_queue.length < MAX_QUEUE_SIZE then
    ({ st with packet_queue := st.packet_queue ++ [packet] }, true)
  else
    ({ st with packet_queue := st.packet_queue.tail ++ [packet] }, true)

/-- packet_sniffer.py: PacketSniffer.get_packet.  A successful `get` pops
the oldest (front) element and marks it processed; an empty queue yields
None (the timeout only delays that outcome). -/
def getPacket (st : SnifferState) : SnifferState × Option Packet :=
  match st.packet_queue with
  | [] => (st, none)
  | packet :: rest => ({ st with packet_queue := rest }, some packet.mark_processed)

/-- packet_sniffer.py: PacketSniffer.get_all_packets (drains the queue in
FIFO order and returns the drained packets). -/
def getAllPackets (st : SnifferState) : SnifferState × List Packet :=
  ({ st with packet_queue := [] }, st.packet_queue)

/-- packet_sniffer.py: PacketSniffer.clear_queue (drains the queue,
returning the number of packets removed). -/
def clearQueue (st : SnifferState) : SnifferState × Nat :=
  ({ st with packet_queue := [] }, st.packet_queue.length)

/-- packet_sniffer.py: PacketSniffer.trigger_attack.  `now` is the reading
of time.time() at the call. -/
def triggerAttack (st : SnifferState) (attack_type : String) (now : Rat) :
    SnifferState × Bool :=
  if st.simulation_mode = false then (st, false)
  else
    let attack_type := attack_type.toUpper
    match List.lookup attack_type ATTACK_TYPES with
    | none => (st, false)
    | some attack_config =>
        ({ st with
            attack_active := true,
            attack_type := some attack_type,
            attack_start_time := now,
            attack_duration := attack_config.duration.getD 10,
            current_rate := attack_config.intensity.getD ATTACK_PACKET_RATE }, true)

/-! ## packet_sniffer.py: the simulated-traffic generators

All calls into Python's `random` module are modelled by explicit draw
inputs, one field per call site, per the conventions in the module
docstring. -/

/-- `random.choice(l)` for a draw `i`: some element of `l` (the default
`d` is only reached on an empty list, which every call site guards). -/
def randChoice {α : Type} (l : List α) (i : Nat) (d : α) : α :=
  l.getD (i % l.length) d

/-- The draws consumed by one call of _generate_normal_packet. -/
structure NormalDraw where
  roll : Rat
  white_choice : Nat
  octet1 : Nat
  octet2 : Nat
  octet3 : Nat
  octet4 : Nat
  susp_choice : Nat
  fb_octet3 : Nat
  fb_octet4 : Nat
  server_choice : Nat
  sport : Nat
  dport_choice : Nat
  proto_choice : Nat
  size : Nat
deriving DecidableEq, Repr

/-- packet_sniffer.py: PacketSniffer._generate_normal_packet. -/
def generateNormalPacket (r : NormalDraw) : Packet :=
  let src_ip :=
    if r.roll < 7 / 10 then
      randChoice WHITELISTED_IPS r.white_choice "0.0.0.0"
    else if r.roll < 9 / 10 then
      toString (1 + r.octet1 % 223) ++ "." ++ toString (r.octet2 % 256) ++ "." ++
        toString (r.octet3 % 256) ++ "." ++ toString (1 + r.octet4 % 254)
    else if SUSPICIOUS_IPS ≠ [] then
      randChoice SUSPICIOUS_IPS r.susp_choice "0.0.0.0"
    else
      "45.33." ++ toString (r.fb_octet3 % 256) ++ "." ++ toString (1 + r.fb_octet4 % 254)
  mkPacket
    { src_ip := src_ip,
      dst_ip := randChoice SERVER_IPS r.server_choice "0.0.0.0",
      src_port := 49152 + r.sport % 16384,
      dst_port := randChoice SAFE_PORTS r.dport_choice 0,
      protocol := randChoice ["TCP", "UDP", "TCP", "TCP"] r.proto_choice "TCP",
      size := 64 + r.size % 1437 }

/-- The draws consumed for one packet of an attack burst. -/
structure AttackDraw where
  src_choice : Nat
  fb_octet2 : Nat
  fb_octet3 : Nat
  fb_octet4 : Nat
  dst_choice : Nat
  port_choice : Nat
  sport : Nat
  size : Nat
deriving DecidableEq, Repr

/-- One packet of an attack burst (the body of the loop in
packet_sniffer.py: PacketSniffer._generate_attack_packets).
`attack_type` is the sniffer's `_attack_type` field. -/
def generateAttackPacket (attack_type : Option String) (r : AttackDraw) : Packet :=
  let atk := attack_type.getD "NONE"
  let src_ip :=
    if BLACKLISTED_IPS ≠ [] then
      randChoice BLACKLISTED_IPS r.src_choice "0.0.0.0"
    else
      "185." ++ toString (r.fb_octet2 % 256) ++ "." ++ toString (r.fb_octet3 % 256) ++
        "." ++ toString (1 + r.fb_octet4 % 254)
  let dst_ip := randChoice SERVER_IPS r.dst_choice "0.0.0.0"
  let dst_port :=
    if atk = "PORT_SCAN" then randChoice ATTACK_TARGET_PORTS r.port_choice 0
    else if atk = "BRUTE_FORCE" then 22
    else if atk = "SYN_FLOOD" then randChoice [80, 443] r.port_choice 0
    else randChoice ATTACK_TARGET_PORTS r.port_choice 0
  let packet := mkPacket
    { src_ip := src_ip,
      dst_ip := dst_ip,
      src_port := 1024 + r.sport % 64512,
      dst_port := dst_port,
      protocol := if atk = "PING_FLOOD" then "ICMP" else "TCP",
      size := 40 + r.size % 1461,
      flags := if atk = "SYN_FLOOD" then "SYN" else "",
      attack_type := atk }
  let packet := { packet with
    threat_level := if src_ip ∈ BLACKLISTED_IPS then .CRITICAL else .HOSTILE }
  let packet := packet._set_visual_properties
  { packet with tags := packet.tags ++ ["attack:" ++ atk.toLower] }

/-- The draws consumed by one call of _generate_attack_packets: the
burst-size draw plus one AttackDraw per generated packet. -/
structure BurstDraw where
  burst : Nat
  draws : Nat → AttackDraw

/-- packet_sniffer.py: PacketSniffer._generate_attack_packets.
`ATTACK_TYPES.get(t, {}).get("intensity", 50)` yields the entry's
intensity when present and 50 otherwise; `randint(intensity // 2,
intensity)` is the burst-size draw. -/
def generateAttackPackets (attack_type : Option String) (r : BurstDraw) : List Packet :=
  let attack_config : Option AttackConfig :=
    match attack_type with
    | some t => List.lookup t ATTACK_TYPES
    | none => none
  let intensity :=
    match attack_config with
    | some c => c.intensity.getD 50
    | none => 50
  let burst_size := intensity / 2 + r.burst % (intensity - intensity / 2 + 1)
  (List.range burst_size).map (fun i => generateAttackPacket attack_type (r.draws i))

/-! ## Operation alphabets for the invariant claims -/

/-- The sniffer-state operations named by the queue-boundedness claim. -/
inductive SnifferOp where
  | process (p : Packet)
  | getOne
  | getAll
  | clear

/-- Run one sniffer operation, keeping the state. -/
def applySnifferOp (st : SnifferState) : SnifferOp → SnifferState
  | .process p => (processPacket st p).1
  | .getOne => (getPacket st).1
  | .getAll => (getAllPackets st).1
  | .clear => (clearQueue st).1

/-- Run a sequence of sniffer operations. -/
def runSnifferOps (st : SnifferState) (ops : List SnifferOp) : SnifferState :=
  ops.foldl applySnifferOp st

/-- The CaptureStatistics operations: update with a packet, or reset. -/
inductive StatsOp where
  | update (p : Packet)
  | reset

/-- Run one statistics operation. -/
def applyStatsOp (s : CaptureStatistics) : StatsOp → CaptureStatistics
  | .update p => s.update p
  | .reset => s.reset

/-- Run a sequence of statistics operations from the freshly constructed
(all-zero) statistics record. -/
def runStats (ops : List StatsOp) : CaptureStatistics :=
  ops.foldl applyStatsOp {}

/-! ## Helper lemmas: field preservation along the Packet pipeline -/

theorem dd_src_ip (p : Packet) : p._determine_direction.src_ip = p.src_ip := by
  simp only [Packet._determine_direction]; split_ifs <;> rfl

theorem dd_dst_ip (p : Packet) : p._determine_direction.dst_ip = p.dst_ip := by
  simp only [Packet._determine_direction]; split_ifs <;> rfl

theorem dd_src_port (p : Packet) : p._determine_direction.src_port = p.src_port := by
  simp only [Packet._determine_direction]; split_ifs <;> rfl

theorem dd_dst_port (p : Packet) : p._determine_direction.dst_port = p.dst_port := by
  simp only [Packet._determine_direction]; split_ifs <;> rfl

theorem dd_threat_level (p : Packet) : p._determine_direction.threat_level = p.threat_level := by
  simp only [Packet._determine_direction]; split_ifs <;> rfl

theorem dd_attack_type (p : Packet) : p._determine_direction.attack_type = p.attack_type := by
  simp only [Packet._determine_direction]; split_ifs <;> rfl

theorem dd_is_blocked (p : Packet) : p._determine_direction.is_blocked = p.is_blocked := by
  simp only [Packet._determine_direction]; split_ifs <;> rfl

theorem svp_src_ip (p : Packet) : p._set_visual_properties.src_ip = p.src_ip := by
  unfold Packet._set_visual_properties
  rcases List.lookup p.threat_level.name THREAT_LEVELS with _ | tc <;> rfl

theorem svp_dst_ip (p : Packet) : p._set_visual_properties.dst_ip = p.dst_ip := by
  unfold Packet._set_visual_properties
  rcases List.lookup p.threat_level.name THREAT_LEVELS with _ | tc <;> rfl

theorem svp_src_port (p : Packet) : p._set_visual_properties.src_port = p.src_port := by
  unfold Packet._set_visual_properties
  rcases List.lookup p.threat_level.name THREAT_LEVELS with _ | tc <;> rfl

theorem svp_dst_port (p : Packet) : p._set_visual_properties.dst_port = p.dst_port := by
  unfold Packet._set_visual_properties
  rcases List.lookup p.threat_level.name THREAT_LEVELS with _ | tc <;> rfl

theorem svp_threat_level (p : Packet) : p._set_visual_properties.threat_level = p.threat_level := by
  unfold Packet._set_visual_properties
  rcases List.lookup p.threat_level.name THREAT_LEVELS with _ | tc <;> rfl

theorem svp_direction (p : Packet) : p._set_visual_properties.direction = p.direction := by
  unfold Packet._set_visual_properties
  rcases List.lookup p.threat_level.name THREAT_LEVELS with _ | tc <;> rfl

theorem svp_attack_type (p : Packet) : p._set_visual_properties.attack_type = p.attack_type := by
  unfold Packet._set_visual_properties
  rcases List.lookup p.threat_level.name THREAT_LEVELS with _ | tc <;> rfl

theorem svp_is_blocked (p : Packet) : p._set_visual_properties.is_blocked = p.is_blocked := by
  unfold Packet._set_visual_properties
  rcases List.lookup p.threat_level.name THREAT_LEVELS with _ | tc <;> rfl

theorem classify_src_ip (p : Packet) : p._classify.src_ip = p.src_ip := by
  simp only [Packet._classify]
  split_ifs <;> simp [svp_src_ip, dd_src_ip]

theorem classify_dst_ip (p : Packet) : p._classify.dst_ip = p.dst_ip := by
  simp only [Packet._classify]
  split_ifs <;> simp [svp_dst_ip, dd_dst_ip]

theorem classify_src_port (p : Packet) : p._classify.src_port = p.src_port := by
  simp only [Packet._classify]
  split_ifs <;> simp [svp_src_port, dd_src_port]

theorem classify_dst_port (p : Packet) : p._classify.dst_port = p.dst_port := by
  simp only [Packet._classify]
  split_ifs <;> simp [svp_dst_port, dd_dst_port]

theorem classify_attack_type (p : Packet) : p._classify.attack_type = p.attack_type := by
  simp only [Packet._classify]
  split_ifs <;> simp [svp_attack_type, dd_attack_type]

theorem classify_is_blocked (p : Packet) : p._classify.is_blocked = p.is_blocked := by
  simp only [Packet._classify]
  split_ifs <;> simp [svp_is_blocked, dd_is_blocked]

/-- What _classify does to the threat level, as one expression over the
three list memberships. -/
theorem classify_threatLevel_eq (p : Packet) :
    p._classify.threat_level =
      if p.src_ip ∈ BLACKLISTED_IPS then ThreatLevel.CRITICAL
      else if p.src_ip ∈ SUSPICIOUS_IPS then ThreatLevel.HOSTILE
      else if p.src_ip ∈ WHITELISTED_IPS then ThreatLevel.SAFE
      else ThreatLevel.UNKNOWN := by
  simp only [Packet._classify]
  split_ifs <;> simp [svp_threat_level, dd_threat_level]

/-- What _determine_direction does to the direction, as one expression over
the two internality bits. -/
theorem dd_direction (p : Packet) :
    p._determine_direction.direction =
      if isInternalAddr p.src_ip && isInternalAddr p.dst_ip then PacketDirection.INTERNAL
      else if isInternalAddr p.dst_ip then PacketDirection.INBOUND
      else if isInternalAddr p.src_ip then PacketDirection.OUTBOUND
      else PacketDirection.EXTERNAL := by
  simp only [Packet._determine_direction]
  cases hs : isInternalAddr p.src_ip <;> cases hd : isInternalAddr p.dst_ip <;> simp [hs, hd]

/-- `random.choice` on a non-empty list returns an element of the list. -/
theorem randChoice_mem {α : Type} (l : List α) (i : Nat) (d : α) (h : l ≠ []) :
    randChoice l i d ∈ l := by
  have hlen : 0 < l.length := List.length_pos.mpr h
  have hi : i % l.length < l.length := Nat.mod_lt _ hlen
  unfold randChoice
  rw [List.getD_eq_getElem l d hi]
  exact List.getElem_mem hi

/-- Properties of every packet built by the attack-burst loop body: the
destination is one of the servers, the attack type is the sniffer's, and
the forced threat level is CRITICAL for blacklisted sources, HOSTILE
otherwise. -/
theorem generateAttackPacket_props (attack_type : Option String) (r : AttackDraw) :
    (generateAttackPacket attack_type r).dst_ip ∈ SERVER_IPS ∧
    (generateAttackPacket attack_type r).attack_type = attack_type.getD "NONE" ∧
    (generateAttackPacket attack_type r).threat_level =
      (if (generateAttackPacket attack_type r).src_ip ∈ BLACKLISTED_IPS then ThreatLevel.CRITICAL
       else ThreatLevel.HOSTILE) := by
  simp only [generateAttackPacket, mkPacket]
  refine ⟨?_, ?_, ?_⟩
  · simp only [svp_dst_ip, classify_dst_ip]
    exact randChoice_mem SERVER_IPS r.dst_choice "0.0.0.0" (by decide)
  · simp [svp_attack_type, classify_attack_type]
  · simp [svp_threat_level, svp_src_ip, classify_src_ip]

/-- The spec-side decision table of claim C1: the threat level as a pure
function of the three membership bits, in precedence order. -/
def threatLevelOfMemberships (inBlacklist inSuspicious inWhitelist : Bool) : ThreatLevel :=
  if inBlacklist then .CRITICAL
  else if inSuspicious then .HOSTILE
  else if inWhitelist then .SAFE
  else .UNKNOWN

/-- Claim C1: for every Packet, the constructor-run _classify decides the
threat level purely from the three source-IP list memberships, in the
precedence order blacklist → CRITICAL, suspicious → HOSTILE, whitelist →
SAFE, otherwise UNKNOWN; and the level is one of the five enumerated
values. -/
theorem classify_threat_level_of_memberships (p : Packet) :
    p._classify.threat_level =
      threatLevelOfMemberships (decide (p.src_ip ∈ BLACKLISTED_IPS))
        (decide (p.src_ip ∈ SUSPICIOUS_IPS)) (decide (p.src_ip ∈ WHITELISTED_IPS)) ∧
    p._classify.threat_level ∈
      [ThreatLevel.SAFE, ThreatLevel.UNKNOWN, ThreatLevel.SUSPICIOUS,
       ThreatLevel.HOSTILE, ThreatLevel.CRITICAL] := by
  constructor
  · rw [classify_threatLevel_eq]
    unfold threatLevelOfMemberships
    by_cases h1 : p.src_ip ∈ BLACKLISTED_IPS <;>
      by_cases h2 : p.src_ip ∈ SUSPICIOUS_IPS <;>
        by_cases h3 : p.src_ip ∈ WHITELISTED_IPS <;> simp [h1, h2, h3]
  · cases hl : p._classify.threat_level <;> simp

/-- Claim C8: for every constructed Packet, _determine_direction performs a
total case split on endpoint internality — INTERNAL when both ends are
internal, INBOUND when only the destination is, OUTBOUND when only the
source is, EXTERNAL when neither is — and the direction after construction
is never UNKNOWN. -/
theorem classify_direction_total_split (p : Packet) :
    (p._classify.direction =
      if isInternalAddr p.src_ip && isInternalAddr p.dst_ip then PacketDirection.INTERNAL
      else if !isInternalAddr p.src_ip && isInternalAddr p.dst_ip then PacketDirection.INBOUND
      else if isInternalAddr p.src_ip && !isInternalAddr p.dst_ip then PacketDirection.OUTBOUND
      else PacketDirection.EXTERNAL) ∧
    p._classify.direction ≠ PacketDirection.UNKNOWN := by
  have hdir : p._classify.direction =
      (if isInternalAddr p.src_ip && isInternalAddr p.dst_ip then PacketDirection.INTERNAL
       else if isInternalAddr p.dst_ip then PacketDirection.INBOUND
       else if isInternalAddr p.src_ip then PacketDirection.OUTBOUND
       else PacketDirection.EXTERNAL) := by
    cases hs : isInternalAddr p.src_ip <;> cases hd : isInternalAddr p.dst_ip <;>
      · simp only [Packet._classify]
        split_ifs <;> simp_all [svp_direction, dd_direction]
  constructor
  · rw [hdir]
    cases hs : isInternalAddr p.src_ip <;> cases hd : isInternalAddr p.dst_ip <;> simp
  · rw [hdir]
    cases hs : isInternalAddr p.src_ip <;> cases hd : isInternalAddr p.dst_ip <;> simp

/-- Claim C6: the SUSPICIOUS level is unreachable through the pipeline —
_classify never assigns it (sources in SUSPICIOUS_IPS get HOSTILE), and the
attack-burst generator forces only CRITICAL or HOSTILE, so every generated
or classified packet has its level in SAFE/UNKNOWN/HOSTILE/CRITICAL. -/
theorem suspicious_level_unreachable (p : Packet) (attack_type : Option String) (r : BurstDraw) :
    p._classify.threat_level ≠ ThreatLevel.SUSPICIOUS ∧
    p._classify.threat_level ∈
      [ThreatLevel.SAFE, ThreatLevel.UNKNOWN, ThreatLevel.HOSTILE, ThreatLevel.CRITICAL] ∧
    (generateAttackPackets attack_type r).all
      (fun q => decide (q.threat_level ∈
        [ThreatLevel.SAFE, ThreatLevel.UNKNOWN, ThreatLevel.HOSTILE, ThreatLevel.CRITICAL])) = true := by
  have hcl : p._classify.threat_level ∈
      [ThreatLevel.SAFE, ThreatLevel.UNKNOWN, ThreatLevel.HOSTILE, ThreatLevel.CRITICAL] := by
    rw [classify_threatLevel_eq]
    split_ifs <;> simp
  refine ⟨?_, hcl, ?_⟩
  · intro hcontra
    rw [hcontra] at hcl
    simp at hcl
  · rw [List.all_eq_true]
    intro q hq
    unfold generateAttackPackets at hq
    rw [List.mem_map] at hq
    obtain ⟨i, _, hqe⟩ := hq
    have hprops := (generateAttackPacket_props attack_type (r.draws i)).2.2
    rw [hqe] at hprops
    rw [decide_eq_true_iff, hprops]
    split_ifs <;> simp

/-! ## Queue claims -/

/-- Claim C2: an unblocked packet processed while the queue already holds
MAX_QUEUE_SIZE packets evicts the oldest element: _process_packet returns
True, the resulting queue is the old queue minus its head plus the new
packet at the back (so FIFO order of survivors is kept and the new packet
is newest), and the queue still holds MAX_QUEUE_SIZE packets. -/
theorem processPacket_full_drops_oldest (st : SnifferState) (p : Packet)
    (h1 : p.src_ip ∉ st.blocked_ips) (h2 : p.is_blocked = false)
    (h3 : st.packet_queue.length = MAX_QUEUE_SIZE) :
    (processPacket st p).2 = true ∧
    (processPacket st p).1.packet_queue = st.packet_queue.tail ++ [p] ∧
    (processPacket st p).1.packet_queue.length = MAX_QUEUE_SIZE := by
  have hq : st.packet_queue ≠ [] := by
    intro hnil
    rw [hnil] at h3
    simp [MAX_QUEUE_SIZE] at h3
  simp only [processPacket, if_neg h1, h2]
  have hnotlt : ¬ st.packet_queue.length < MAX_QUEUE_SIZE := by omega
  simp only [if_neg hnotlt, Bool.false_eq_true, if_false]
  refine ⟨trivial, trivial, ?_⟩
  rw [List.length_append, List.length_tail, h3]
  simp [MAX_QUEUE_SIZE]

/-- A packet with a fresh source, used to exercise the queue theorems. -/
def freshPacket : Packet := mkPacket { src_ip := "9.9.9.9", dst_ip := "192.168.1.100" }

/-- A sniffer state whose queue is at capacity. -/
def fullQueueState : SnifferState :=
  { packet_queue := List.replicate MAX_QUEUE_SIZE (mkPacket { src_ip := "8.8.8.8" }) }

theorem processPacket_full_drops_oldest_witness :
    (processPacket fullQueueState freshPacket).2 = true ∧
    (processPacket fullQueueState freshPacket).1.packet_queue =
      fullQueueState.packet_queue.tail ++ [freshPacket] ∧
    (processPacket fullQueueState freshPacket).1.packet_queue.length = MAX_QUEUE_SIZE :=
  processPacket_full_drops_oldest fullQueueState freshPacket
    (by simp [fullQueueState])
    (by simp [freshPacket, mkPacket, classify_is_blocked])
    (by simp [fullQueueState])

/-- Helper for claim C3: every single sniffer operation preserves the
queue bound. -/
theorem applySnifferOp_bound (st : SnifferState) (op : SnifferOp)
    (h : st.packet_queue.length ≤ MAX_QUEUE_SIZE) :
    (applySnifferOp st op).packet_queue.length ≤ MAX_QUEUE_SIZE := by
  have hM : MAX_QUEUE_SIZE = 500 := rfl
  cases op with
  | process p =>
      simp only [applySnifferOp, processPacket]
      split_ifs <;> simp [List.length_tail] <;> omega
  | getOne =>
      simp only [applySnifferOp, getPacket]
      cases hq : st.packet_queue with
      | nil => simp [hq]
      | cons a rest =>
          rw [hq] at h
          simp at h ⊢
          omega
  | getAll => simp [applySnifferOp, getAllPackets, MAX_QUEUE_SIZE]
  | clear => simp [applySnifferOp, clearQueue, MAX_QUEUE_SIZE]

/-- Claim C3: the packet queue is bounded — MAX_QUEUE_SIZE is 500, and
from any state satisfying the bound, any sequence of _process_packet,
get_packet, get_all_packets and clear_queue operations keeps the queue
length at or below MAX_QUEUE_SIZE. -/
theorem packet_queue_bounded (st : SnifferState) (ops : List SnifferOp)
    (h : st.packet_queue.length ≤ MAX_QUEUE_SIZE) :
    MAX_QUEUE_SIZE = 500 ∧
    (runSnifferOps st ops).packet_queue.length ≤ MAX_QUEUE_SIZE := by
  refine ⟨rfl, ?_⟩
  induction ops generalizing st with
  | nil => exact h
  | cons op rest ih => exact ih _ (applySnifferOp_bound st op h)

theorem packet_queue_bounded_witness :
    MAX_QUEUE_SIZE = 500 ∧
    (runSnifferOps initialSniffer
      [SnifferOp.process freshPacket, SnifferOp.getOne, SnifferOp.process freshPacket,
       SnifferOp.getAll, SnifferOp.clear]).packet_queue.length ≤ MAX_QUEUE_SIZE :=
  packet_queue_bounded initialSniffer
    [SnifferOp.process freshPacket, SnifferOp.getOne, SnifferOp.process freshPacket,
     SnifferOp.getAll, SnifferOp.clear]
    (by simp [initialSniffer, MAX_QUEUE_SIZE])

/-- A sniffer state that has blocked the blacklisted source 103.75.201.2. -/
def blockedSniffer : SnifferState := { blocked_ips := ["103.75.201.2"] }

/-- A packet arriving from the blocked source. -/
def blockedSourcePacket : Packet :=
  mkPacket { src_ip := "103.75.201.2", dst_ip := "192.168.1.100" }

/-- Claim C4 counterexample: a packet from a source in the sniffer's
blocked set is NOT enqueued by _process_packet and the call returns False,
refuting the claim that every packet passed to _process_packet ends up
enqueued with the function returning True. -/
theorem processPacket_blocked_not_queued :
    (processPacket blockedSniffer blockedSourcePacket).2 = false ∧
    (processPacket blockedSniffer blockedSourcePacket).1.packet_queue = [] := by
  have hsrc : blockedSourcePacket.src_ip = "103.75.201.2" := by
    simp [blockedSourcePacket, mkPacket, classify_src_ip]
  refine ⟨?_, ?_⟩ <;>
    simp [processPacket, hsrc, Packet.mark_blocked, blockedSniffer]

/-- Claim C4 (amended): _process_packet enqueues exactly the packets that
are not blocked — it returns True and appends the packet at the back of
the queue (evicting the oldest element first when the queue is full) iff
the packet's source IP is not in the blocked set and the packet is not
already marked blocked; otherwise the queue is left unchanged and the
call returns False. -/
theorem processPacket_queue_characterization (st : SnifferState) (p : Packet) :
    (processPacket st p).2 = (!decide (p.src_ip ∈ st.blocked_ips) && !p.is_blocked) ∧
    (processPacket st p).1.packet_queue =
      (if p.src_ip ∈ st.blocked_ips ∨ p.is_blocked = true then st.packet_queue
       else (if st.packet_queue.length < MAX_QUEUE_SIZE then st.packet_queue
             else st.packet_queue.tail) ++ [p]) := by
  by_cases hm : p.src_ip ∈ st.blocked_ips
  · simp only [processPacket, if_pos hm, Packet.mark_blocked]
    simp [hm]
  · simp only [processPacket, if_neg hm]
    cases hb : p.is_blocked
    · simp only [Bool.false_eq_true, if_false]
      by_cases hlt : st.packet_queue.length < MAX_QUEUE_SIZE
      · simp [hm, hb, hlt]
      · simp [hm, hb, hlt]
    · simp [hm, hb]

/-! ## Generator claims -/

/-- Claim C5: while an attack is active, every burst produced by
_generate_attack_packets holds between intensity // 2 and intensity
packets (intensity from the ATTACK_TYPES entry of the active attack), and
every packet of the burst targets a server IP, carries the active attack
type, and is CRITICAL when its source is blacklisted, HOSTILE otherwise. -/
theorem generateAttackPackets_burst_spec (atk : String) (attack_config : AttackConfig)
    (n : Nat) (r : BurstDraw)
    (h1 : List.lookup atk ATTACK_TYPES = some attack_config)
    (h2 : attack_config.intensity = some n) :
    n / 2 ≤ (generateAttackPackets (some atk) r).length ∧
    (generateAttackPackets (some atk) r).length ≤ n ∧
    (generateAttackPackets (some atk) r).all
      (fun q => decide (q.dst_ip ∈ SERVER_IPS) && decide (q.attack_type = atk) &&
        decide (q.threat_level =
          if q.src_ip ∈ BLACKLISTED_IPS then ThreatLevel.CRITICAL else ThreatLevel.HOSTILE)) =
      true := by
  have hlen : (generateAttackPackets (some atk) r).length =
      n / 2 + r.burst % (n - n / 2 + 1) := by
    simp [generateAttackPackets, h1, h2]
  have hmod : r.burst % (n - n / 2 + 1) < n - n / 2 + 1 := Nat.mod_lt _ (by omega)
  refine ⟨by omega, by omega, ?_⟩
  rw [List.all_eq_true]
  intro q hq
  simp only [generateAttackPackets] at hq
  rw [List.mem_map] at hq
  obtain ⟨i, _, rfl⟩ := hq
  obtain ⟨hd, ha, ht⟩ := generateAttackPacket_props (some atk) (r.draws i)
  simp only [Bool.and_eq_true, decide_eq_true_iff]
  exact ⟨⟨hd, by rw [ha]; rfl⟩, ht⟩

/-- A fixed per-packet draw used to instantiate the attack-burst theorem. -/
def witnessAttackDraw : AttackDraw :=
  { src_choice := 0, fb_octet2 := 0, fb_octet3 := 0, fb_octet4 := 0,
    dst_choice := 0, port_choice := 0, sport := 0, size := 0 }

/-- A fixed burst draw used to instantiate the attack-burst theorem. -/
def witnessBurstDraw : BurstDraw := { burst := 3, draws := fun _ => witnessAttackDraw }

theorem generateAttackPackets_burst_spec_witness :
    20 / 2 ≤ (generateAttackPackets (some "PORT_SCAN") witnessBurstDraw).length ∧
    (generateAttackPackets (some "PORT_SCAN") witnessBurstDraw).length ≤ 20 ∧
    (generateAttackPackets (some "PORT_SCAN") witnessBurstDraw).all
      (fun q => decide (q.dst_ip ∈ SERVER_IPS) && decide (q.attack_type = "PORT_SCAN") &&
        decide (q.threat_level =
          if q.src_ip ∈ BLACKLISTED_IPS then ThreatLevel.CRITICAL else ThreatLevel.HOSTILE)) =
      true :=
  generateAttackPackets_burst_spec "PORT_SCAN"
    { name := "Port Scan", intensity := some 20, description := "Scanning for open ports",
      duration := some 5 }
    20 witnessBurstDraw (by rfl) (by rfl)

/-- Claim C7: normal-traffic generation is weighted random IP selection —
a whitelisted source when the roll is below 0.7, a fresh dotted quad with
first octet in 1..223 when the roll is in [0.7, 0.9), and a member of the
(non-empty) SUSPICIOUS_IPS list otherwise; and every generated packet has
a server destination IP, a SAFE_PORTS destination port, and a source port
in 49152..65535. -/
theorem generateNormalPacket_spec (r : NormalDraw) :
    (if r.roll < 7 / 10 then (generateNormalPacket r).src_ip ∈ WHITELISTED_IPS
     else if r.roll < 9 / 10 then
       ∃ a b c q, 1 ≤ a ∧ a ≤ 223 ∧ b ≤ 255 ∧ c ≤ 255 ∧ 1 ≤ q ∧ q ≤ 254 ∧
         (generateNormalPacket r).src_ip =
           toString a ++ "." ++ toString b ++ "." ++ toString c ++ "." ++ toString q
     else (generateNormalPacket r).src_ip ∈ SUSPICIOUS_IPS) ∧
    (generateNormalPacket r).dst_ip ∈ SERVER_IPS ∧
    (generateNormalPacket r).dst_port ∈ SAFE_PORTS ∧
    49152 ≤ (generateNormalPacket r).src_port ∧
    (generateNormalPacket r).src_port ≤ 65535 := by
  have hsrc : (generateNormalPacket r).src_ip =
      (if r.roll < 7 / 10 then randChoice WHITELISTED_IPS r.white_choice "0.0.0.0"
       else if r.roll < 9 / 10 then
         toString (1 + r.octet1 % 223) ++ "." ++ toString (r.octet2 % 256) ++ "." ++
           toString (r.octet3 % 256) ++ "." ++ toString (1 + r.octet4 % 254)
       else if SUSPICIOUS_IPS ≠ [] then randChoice SUSPICIOUS_IPS r.susp_choice "0.0.0.0"
       else "45.33." ++ toString (r.fb_octet3 % 256) ++ "." ++
         toString (1 + r.fb_octet4 % 254)) := by
    simp [generateNormalPacket, mkPacket, classify_src_ip]
  have hdst : (generateNormalPacket r).dst_ip = randChoice SERVER_IPS r.server_choice "0.0.0.0" := by
    simp [generateNormalPacket, mkPacket, classify_dst_ip]
  have hdport : (generateNormalPacket r).dst_port = randChoice SAFE_PORTS r.dport_choice 0 := by
    simp [generateNormalPacket, mkPacket, classify_dst_port]
  have hsport : (generateNormalPacket r).src_port = 49152 + r.sport % 16384 := by
    simp [generateNormalPacket, mkPacket, classify_src_port]
  refine ⟨?_, ?_, ?_, ?_, ?_⟩
  · rw [hsrc]
    split_ifs with hr1 hr2 hs
    · exact randChoice_mem _ _ _ (by decide)
    · exact ⟨1 + r.octet1 % 223, r.octet2 % 256, r.octet3 % 256, 1 + r.octet4 % 254,
        by omega, by omega, by omega, by omega, by omega, by omega, rfl⟩
    · exact randChoice_mem _ _ _ hs
    · exact absurd (by decide : SUSPICIOUS_IPS ≠ []) hs
  · rw [hdst]
    exact randChoice_mem _ _ _ (by decide)
  · rw [hdport]
    exact randChoice_mem _ _ _ (by decide)
  · rw [hsport]; omega
  · rw [hsport]
    have := Nat.mod_lt r.sport (show 0 < 16384 by omega)
    omega

/-! ## Statistics claim -/

/-- The consistency invariant of CaptureStatistics. -/
def statsConsistent (s : CaptureStatistics) : Prop :=
  s.total_captured = s.total_blocked + s.total_allowed ∧
  s.total_captured =
    s.safe_count + s.unknown_count + s.suspicious_count + s.hostile_count + s.critical_count

/-- Helper: one update preserves the consistency invariant. -/
theorem statsConsistent_update (s : CaptureStatistics) (p : Packet)
    (h : statsConsistent s) : statsConsistent (s.update p) := by
  obtain ⟨h1, h2⟩ := h
  unfold statsConsistent CaptureStatistics.update
  cases hb : p.is_blocked <;> cases hl : p.threat_level <;> simp [hb, hl] <;> omega

/-- Helper: the invariant holds after any operation sequence from any
consistent start. -/
theorem statsConsistent_fold (s : CaptureStatistics) (ops : List StatsOp)
    (h : statsConsistent s) : statsConsistent (ops.foldl applyStatsOp s) := by
  induction ops generalizing s with
  | nil => exact h
  | cons op rest ih =>
      cases op with
      | update p => exact ih _ (statsConsistent_update s p h)
      | reset => exact ih _ (by constructor <;> rfl)

/-- Claim C9: after any sequence of update and reset calls,
total_captured equals total_blocked + total_allowed and equals the sum of
the five per-level counts; and each update adds the packet's damage to
damage_prevented exactly when the packet is blocked, and to total_damage
exactly when it is allowed, never to both. -/
theorem captureStatistics_consistent (ops : List StatsOp) (t : CaptureStatistics) (p : Packet) :
    ((runStats ops).total_captured = (runStats ops).total_blocked + (runStats ops).total_allowed ∧
     (runStats ops).total_captured =
       (runStats ops).safe_count + (runStats ops).unknown_count +
         (runStats ops).suspicious_count + (runStats ops).hostile_count +
         (runStats ops).critical_count) ∧
    (t.update p).damage_prevented =
      t.damage_prevented + (if p.is_blocked then p.damage else 0) ∧
    (t.update p).total_damage =
      t.total_damage + (if p.is_blocked then 0 else p.damage) := by
  refine ⟨statsConsistent_fold {} ops (by constructor <;> rfl), ?_, ?_⟩ <;>
    · unfold CaptureStatistics.update
      cases hb : p.is_blocked <;> cases hl : p.threat_level <;> simp [hb, hl]

/-! ## Attack-trigger claim -/

/-- Claim C10: trigger_attack is atomic on failure — outside simulation
mode, or when the upper-cased attack type is not a key of ATTACK_TYPES, it
returns False and leaves the whole state (in particular _attack_active,
_attack_type, _attack_start_time, _attack_duration and _current_rate)
unchanged; otherwise it returns True, activates the attack, records the
upper-cased type and the start time, and takes the duration and rate from
the attack's configuration, defaulting the duration to 10.0 and the rate
to ATTACK_PACKET_RATE. -/
theorem triggerAttack_characterization (st : SnifferState) (attack_type : String) (now : Rat) :
    triggerAttack st attack_type now =
      (match List.lookup attack_type.toUpper ATTACK_TYPES with
       | some attack_config =>
           if st.simulation_mode then
             ({ st with
                 attack_active := true,
                 attack_type := some attack_type.toUpper,
                 attack_start_time := now,
                 attack_duration := attack_config.duration.getD 10,
                 current_rate := attack_config.intensity.getD ATTACK_PACKET_RATE }, true)
           else (st, false)
       | none => (st, false)) := by
  unfold triggerAttack
  cases hm : st.simulation_mode <;>
    rcases hl : List.lookup attack_type.toUpper ATTACK_TYPES with _ | attack_config <;>
      simp [hm, hl]

end PacketDefender
